import Mathlib

/-!
Verification of the freesurfer-recon-all gear orchestration logic.

The definitions below are shallow embeddings of the Python source:

* `remove_i_args`, `generate_command`, `set_core_count`,
  `execute_recon_all_command` embed the functions of the same names in
  `run.py`;
* `make_file_name_safe` embeds `utils/fly/make_file_name_safe.py`;
* `validate_bids_model` embeds `validate_bids` in `utils/bids/validate.py`;
* `fix_dataset_description` and `download_bids_for_runlevel` embed
  `utils/bids/download_run_level.py`;
* `get_run_level_and_hierarchy` embeds `utils/bids/run_level.py`.

External collaborators (the filesystem, the Flywheel SDK client, the external
processes that are invoked) are modelled as explicit oracle parameters, and
Python exceptions as `Except` values.
-/

namespace ReconAll

/-- Python exceptions relevant to the embedded code. -/
inductive PyErr where
  | typeError
  | keyError
  | attributeError
  | unboundLocalError
  | apiError
  deriving Repr, DecidableEq

/-! ### remove_i_args (run.py lines 244-265)

The Python loop threads a `skip_arg` flag: a `-i` token is never appended and
sets the flag; a token seen with the flag set is dropped and clears it; any
other token is appended. -/

/-- Loop of `remove_i_args`: `skip` is the Python `skip_arg` flag. -/
def removeIAux : Bool → List String → List String
  | _, [] => []
  | skip, arg :: rest =>
    if arg = "-i" then removeIAux true rest
    else if skip then removeIAux false rest
    else arg :: removeIAux false rest

/-- Embedding of `remove_i_args` from `run.py`. -/
def remove_i_args (command : List String) : List String :=
  removeIAux false command

/-- Written from the spec's words, for comparison with `remove_i_args`:
a token is removed exactly when it is the token `-i` or it is the value
token immediately following an occurrence of `-i`; every other token is
kept, in order.  Each token is paired with its predecessor (`none` for the
first token) and kept when neither it nor its predecessor is `-i`. -/
def spec_remove_every_i_pair (c : List String) : List String :=
  ((none :: c.map some).zip c).filterMap fun pa =>
    if pa.2 = "-i" ∨ pa.1 = some "-i" then none else some pa.2

theorem removeIAux_eq_spec (c : List String) :
    ∀ (skip : Bool) (prev : Option String), (skip = true ↔ prev = some "-i") →
      removeIAux skip c =
        ((prev :: c.map some).zip c).filterMap fun pa =>
          if pa.2 = "-i" ∨ pa.1 = some "-i" then none else some pa.2 := by
  induction c with
  | nil => intro skip prev hsp; rfl
  | cons a rest ih =>
    intro skip prev hsp
    by_cases ha : a = "-i"
    · subst ha
      rw [show removeIAux skip ("-i" :: rest) = removeIAux true rest from by
        simp [removeIAux]]
      rw [ih true (some "-i") (by simp)]
      simp [List.zip_cons_cons, List.filterMap_cons]
    · by_cases hp : prev = some "-i"
      · have hskip : skip = true := hsp.mpr hp
        subst hskip
        rw [show removeIAux true (a :: rest) = removeIAux false rest from by
          simp [removeIAux, ha]]
        rw [ih false (some a) (by simp [ha])]
        simp [List.zip_cons_cons, List.filterMap_cons, ha, hp]
      · have hskip : skip = false := by
          cases skip
          · rfl
          · exact absurd (hsp.mp rfl) hp
        subst hskip
        rw [show removeIAux false (a :: rest) = a :: removeIAux false rest from by
          simp [removeIAux, ha]]
        rw [ih false (some a) (by simp [ha])]
        simp [List.zip_cons_cons, List.filterMap_cons, ha, hp]

/-- C2: `remove_i_args` removes exactly the `-i` tokens and the value tokens
immediately following them (the positional reading of "every adjacent
`-i <value>` pair"), and nothing else; and on the spec's example command it
returns the spec's stated result. -/
theorem remove_i_args_removes_every_pair :
    (∀ c : List String, remove_i_args c = spec_remove_every_i_pair c) ∧
      remove_i_args ["time", "recon-all", "-i", "A", "-all", "-i", "B", "-3T"] =
        ["time", "recon-all", "-all", "-3T"] := by
  constructor
  · intro c
    have h := removeIAux_eq_spec c false none (by simp)
    simpa [remove_i_args, spec_remove_every_i_pair] using h
  · rfl

theorem removeIAux_not_mem (c : List String) :
    ∀ skip : Bool, "-i" ∉ removeIAux skip c := by
  induction c with
  | nil => intro skip; simp [removeIAux]
  | cons a rest ih =>
    intro skip
    by_cases ha : a = "-i"
    · simpa [removeIAux, ha] using ih true
    · by_cases hs : skip
      · simpa [removeIAux, ha, hs] using ih false
      · simp only [removeIAux, ha, hs, if_false, ite_false]
        intro hmem
        rcases List.mem_cons.mp hmem with h | h
        · exact ha h.symm
        · exact ih false h

theorem removeIAux_id_of_not_mem (c : List String) (h : "-i" ∉ c) :
    removeIAux false c = c := by
  induction c with
  | nil => rfl
  | cons a rest ih =>
    have ha : a ≠ "-i" := fun hh => h (hh ▸ List.mem_cons_self a rest)
    have hr : "-i" ∉ rest := fun hh => h (List.mem_cons_of_mem a hh)
    simp [removeIAux, ha, ih hr]

/-- C9: the output of `remove_i_args` never contains a `-i` token (even for
`-i -i x` runs or a trailing `-i`), and `remove_i_args` is idempotent. -/
theorem remove_i_args_no_i_and_idempotent :
    (∀ c : List String, "-i" ∉ remove_i_args c) ∧
      (∀ c : List String, remove_i_args (remove_i_args c) = remove_i_args c) := by
  refine ⟨fun c => removeIAux_not_mem c false, fun c => ?_⟩
  exact removeIAux_id_of_not_mem (remove_i_args c) (removeIAux_not_mem c false)

/-! ### execute_recon_all_command (run.py lines 645-715)

The external process is an oracle `fails : Nat → Bool` telling whether the
attempt with the given (1-based) `num_tries` value raises `RuntimeError`.
With `dry_run` set, `exec_command` does not dispatch and never raises.  The
`attempts` field is instrumentation recording the command passed to
`exec_command` at each attempt. -/

/-- Result of `execute_recon_all_command`: the returned
`(errors, warnings, return_code, metadata)` tuple, where each recorded error
is modelled by the pair (attempt number, command that raised), the metadata
by a flag saying whether the dry-run placeholder was stored, plus the
instrumentation trace of attempted commands. -/
structure ExecResult where
  errors : List (Nat × List String)
  warnings : List String
  return_code : Nat
  dry_run_metadata : Bool
  attempts : List (List String)
  deriving Repr, DecidableEq

/-- The `while num_tries < 2` loop of `execute_recon_all_command`. -/
def reconAllGo (fails : Nat → Bool) (dry_run : Bool) (command : List String)
    (num_tries return_code : Nat) (errors : List (Nat × List String))
    (warnings : List String) (dry_meta : Bool)
    (attempts : List (List String)) : ExecResult :=
  if _h : num_tries < 2 then
    let num_tries' := num_tries + 1
    let warnings' :=
      if dry_run then warnings ++ ["gear-dry-run is set: Command was NOT run."]
      else warnings
    let dry_meta' := if dry_run then true else dry_meta
    let attempts' := attempts ++ [command]
    if dry_run = false ∧ fails num_tries' = true then
      reconAllGo fails dry_run (remove_i_args command) num_tries' 1
        (errors ++ [(num_tries', command)]) warnings' dry_meta' attempts'
    else
      { errors := errors, warnings := warnings', return_code := 0,
        dry_run_metadata := dry_meta', attempts := attempts' }
  else
    { errors := errors, warnings := warnings, return_code := return_code,
      dry_run_metadata := dry_meta, attempts := attempts }
termination_by 2 - num_tries
decreasing_by omega

/-- Embedding of `execute_recon_all_command` from `run.py`. -/
def execute_recon_all_command (fails : Nat → Bool) (command : List String)
    (dry_run : Bool) : ExecResult :=
  reconAllGo fails dry_run command 0 0 [] [] false []

/-- C1: a real (non-dry) run makes at most two attempts.  If the first
attempt succeeds the return code is 0 with no errors and a single attempt.
If the first attempt raises, the error is recorded, and exactly one retry is
made with `remove_i_args` applied to the command; success of the retry gives
return code 0, failure of the retry is terminal with return code 1, both
errors recorded and no third attempt. -/
theorem execute_recon_all_retry_behavior :
    ∀ (fails : Nat → Bool) (command : List String),
      (fails 1 = false →
        execute_recon_all_command fails command false =
          { errors := [], warnings := [], return_code := 0,
            dry_run_metadata := false, attempts := [command] }) ∧
      (fails 1 = true → fails 2 = false →
        execute_recon_all_command fails command false =
          { errors := [(1, command)], warnings := [], return_code := 0,
            dry_run_metadata := false,
            attempts := [command, remove_i_args command] }) ∧
      (fails 1 = true → fails 2 = true →
        execute_recon_all_command fails command false =
          { errors := [(1, command), (2, remove_i_args command)],
            warnings := [], return_code := 1, dry_run_metadata := false,
            attempts := [command, remove_i_args command] }) := by
  intro fails command
  refine ⟨fun h1 => ?_, fun h1 h2 => ?_, fun h1 h2 => ?_⟩
  · rw [execute_recon_all_command, reconAllGo]
    simp [h1]
  · rw [execute_recon_all_command, reconAllGo]
    simp only [h1]
    rw [reconAllGo]
    simp [h2]
  · rw [execute_recon_all_command, reconAllGo]
    simp only [h1]
    rw [reconAllGo]
    simp only [h2]
    rw [reconAllGo]
    simp

/-- Witness for C1 at a concrete failure oracle (first attempt fails, second
succeeds) and a concrete command. -/
theorem execute_recon_all_retry_behavior_witness :
    execute_recon_all_command (fun k => k = 1) ["time", "recon-all", "-i", "A", "-subjid", "S1"] false =
      { errors := [(1, ["time", "recon-all", "-i", "A", "-subjid", "S1"])],
        warnings := [], return_code := 0, dry_run_metadata := false,
        attempts := [["time", "recon-all", "-i", "A", "-subjid", "S1"],
          ["time", "recon-all", "-subjid", "S1"]] } := by
  have h := (execute_recon_all_retry_behavior (fun k => decide (k = 1))
    ["time", "recon-all", "-i", "A", "-subjid", "S1"]).2.1 (by decide) (by decide)
  simpa [remove_i_args, removeIAux] using h

/-! ### Configuration values

Python configuration values reaching `generate_command` and
`set_core_count` are booleans, integers or strings. -/

/-- A configuration value from `config.json`. -/
inductive CVal where
  | bool (b : Bool)
  | int (n : Int)
  | str (s : String)
  deriving Repr, DecidableEq

/-- Python `f"{val}"` / `str(val)` on a configuration value. -/
def CVal.pyStr : CVal → String
  | .bool b => if b then "True" else "False"
  | .int n => toString n
  | .str s => s

/-- Python truthiness of a configuration value. -/
def CVal.truthy : CVal → Bool
  | .bool b => b
  | .int n => n ≠ 0
  | .str s => s ≠ ""

/-- A Python dict with string keys in insertion order. -/
def PyDict := List (String × CVal)

/-- Python `d.get(key)` / `d[key]`. -/
def PyDict.get? (d : PyDict) (key : String) : Option CVal :=
  match d with
  | [] => none
  | kv :: rest => if kv.1 = key then some kv.2 else PyDict.get? rest key

/-- Python `d[key] = v`: replace in place if the key exists, else append. -/
def PyDict.set (d : PyDict) (key : String) (v : CVal) : PyDict :=
  match d with
  | [] => [(key, v)]
  | kv :: rest =>
    if kv.1 = key then (key, v) :: rest else kv :: PyDict.set rest key v

/-- Python `del d[key]`. -/
def PyDict.del (d : PyDict) (key : String) : PyDict :=
  match d with
  | [] => []
  | kv :: rest => if kv.1 = key then rest else kv :: PyDict.del rest key

/-! ### generate_command (run.py lines 193-241)

`check_for_previous_run`, `get_input_file` and `get_additional_inputs`
inspect the filesystem; their results enter as oracle parameters
(`prev_subject_id` is `""` when no previous-run archive was found, matching
the Python sentinel). -/

/-- Python `s.split(" ")` on the character list: split at every single
space, keeping empty fields (so the empty string yields one empty field). -/
def splitSp : List Char → List (List Char)
  | [] => [[]]
  | c :: rest =>
    if c = ' ' then [] :: splitSp rest
    else
      match splitSp rest with
      | [] => [[c]]
      | g :: gs => (c :: g) :: gs

/-- Python `s.split(" ")`. -/
def pySplitSpace (s : String) : List String :=
  (splitSp s.data).map fun cs => String.mk cs

/-- Tokens contributed by one configuration entry (the body of the
`for key, val in command_config.items()` loop): the free-form
`reconall_options` value is split on spaces (`val.split(" ")` requires a
string and raises `AttributeError` otherwise), a boolean contributes
`-<key>` only when true, and any other value contributes `-<key>` followed
by the value coerced to string. -/
def config_entry_tokens (kv : String × CVal) : Except PyErr (List String) :=
  if kv.1 = "reconall_options" then
    match kv.2 with
    | .str s => .ok (pySplitSpace s)
    | _ => .error .attributeError
  else
    match kv.2 with
    | .bool b => .ok (if b then ["-" ++ kv.1] else [])
    | v => .ok ["-" ++ kv.1, v.pyStr]

/-- Embedding of `generate_command` from `run.py`. -/
def generate_command (prev_subject_id anatomical add_inputs subject_id : String)
    (command_config : PyDict) : Except PyErr (List String) := do
  let command := ["time", "recon-all"]
  let command :=
    if prev_subject_id ≠ "" then
      command ++ ["-subjid", prev_subject_id]
    else
      command ++ ["-i", anatomical] ++
        (if add_inputs ≠ "" then pySplitSpace add_inputs else []) ++
        ["-subjid", subject_id]
  let tokenLists ← command_config.mapM config_entry_tokens
  pure (command ++ tokenLists.flatten)

/-- C3: every configuration key contributes tokens by the stated rules in
iteration order (the whole command is the fixed prefix followed by the
concatenation of each entry's tokens), and on the spec's example
configuration the produced command contains `-parallel` exactly once with
the key contributing only that single token, contains the literal tokens
`-all` and `-qcache`, and contains `-openmp` immediately followed by
`11`. -/
theorem generate_command_config_rules :
    (∀ (prev anat add subj : String) (cfg : PyDict) (ts : List (List String)),
      cfg.mapM config_entry_tokens = .ok ts →
      generate_command prev anat add subj cfg =
        .ok ((if prev ≠ "" then ["time", "recon-all", "-subjid", prev]
          else ["time", "recon-all", "-i", anat] ++
            (if add ≠ "" then pySplitSpace add else []) ++ ["-subjid", subj]) ++
          ts.flatten)) ∧
    (∀ s : String, config_entry_tokens ("reconall_options", .str s) =
      .ok (pySplitSpace s)) ∧
    (∀ (k : String) (b : Bool), k ≠ "reconall_options" →
      config_entry_tokens (k, .bool b) = .ok (if b then ["-" ++ k] else [])) ∧
    (∀ (k : String) (n : Int), k ≠ "reconall_options" →
      config_entry_tokens (k, .int n) = .ok ["-" ++ k, toString n]) ∧
    (generate_command "" "T1.nii" "" "S1"
        [("parallel", .bool true), ("reconall_options", .str "-all -qcache"),
          ("openmp", .int 11)] =
      .ok ["time", "recon-all", "-i", "T1.nii", "-subjid", "S1", "-parallel",
        "-all", "-qcache", "-openmp", "11"] ∧
      config_entry_tokens ("parallel", .bool true) = .ok ["-parallel"] ∧
      (["time", "recon-all", "-i", "T1.nii", "-subjid", "S1", "-parallel",
        "-all", "-qcache", "-openmp", "11"].count "-parallel" = 1 ∧
       "-all" ∈ ["time", "recon-all", "-i", "T1.nii", "-subjid", "S1",
        "-parallel", "-all", "-qcache", "-openmp", "11"] ∧
       "-qcache" ∈ ["time", "recon-all", "-i", "T1.nii", "-subjid", "S1",
        "-parallel", "-all", "-qcache", "-openmp", "11"] ∧
       ["time", "recon-all", "-i", "T1.nii", "-subjid", "S1", "-parallel",
        "-all", "-qcache", "-openmp", "11"].get? 9 = some "-openmp" ∧
       ["time", "recon-all", "-i", "T1.nii", "-subjid", "S1", "-parallel",
        "-all", "-qcache", "-openmp", "11"].get? 10 = some "11")) := by
  refine ⟨?_, fun s => rfl, fun k b hk => ?_, fun k n hk => ?_, ?_⟩
  · intro prev anat add subj cfg ts hts
    unfold generate_command
    rw [hts]
    by_cases hp : prev = ""
    · simp [hp]
    · simp [hp]
  · simp [config_entry_tokens, hk]
  · simp [config_entry_tokens, hk, CVal.pyStr]
  · refine ⟨by rfl, rfl, by decide, by decide, by decide, by decide, by decide⟩

/-- Witness for C3: the general prefix-plus-contributions equation applied at
the spec's example configuration. -/
theorem generate_command_config_rules_witness :
    [("parallel", CVal.bool true), ("reconall_options", CVal.str "-all -qcache"),
        ("openmp", CVal.int 11)].mapM config_entry_tokens =
      .ok [["-parallel"], ["-all", "-qcache"], ["-openmp", "11"]] ∧
    generate_command "" "T1.nii" "" "S1"
        [("parallel", CVal.bool true), ("reconall_options", CVal.str "-all -qcache"),
          ("openmp", CVal.int 11)] =
      .ok ((if ("" : String) ≠ "" then ["time", "recon-all", "-subjid", ""]
        else ["time", "recon-all", "-i", "T1.nii"] ++
          (if ("" : String) ≠ "" then pySplitSpace ("" : String) else []) ++
          ["-subjid", "S1"]) ++
        [["-parallel"], ["-all", "-qcache"], ["-openmp", "11"]].flatten) := by
  refine ⟨by rfl, ?_⟩
  exact generate_command_config_rules.1 "" "T1.nii" "" "S1" _ _ (by rfl)

/-! ### set_core_count (run.py lines 32-53) and the command_config filter
(run.py lines 833-837) -/

/-- Python `n_cpus > os_cpu_count` on a configuration value (a Python bool
compares as its integer value; comparing a string with an int raises
`TypeError`). -/
def CVal.pyGtInt : CVal → Int → Except PyErr Bool
  | .int n, m => .ok (decide (n > m))
  | .bool b, m => .ok (decide ((if b then (1 : Int) else 0) > m))
  | .str _, _ => .error .typeError

/-- Embedding of `set_core_count` from `run.py`: `os_cpu_count` is the
oracle for `os.cpu_count()`, and the returned dict is the mutated
`config`. -/
def set_core_count (os_cpu_count : Int) (config : PyDict) :
    Except PyErr PyDict :=
  match config.get? "n_cpus" with
  | some v =>
    if v.truthy then
      let config := config.del "n_cpus"
      match v.pyGtInt os_cpu_count with
      | .error e => .error e
      | .ok gt =>
        if gt then .ok (config.set "openmp" (.int os_cpu_count))
        else .ok (config.set "openmp" v)
    else .ok (config.set "openmp" (.int os_cpu_count))
  | none => .ok (config.set "openmp" (.int os_cpu_count))

/-- Does the character list `s` start with the character list `p`?  (Python
`s.startswith(p)`.) -/
def startsWithChars : List Char → List Char → Bool
  | [], _ => true
  | _ :: _, [] => false
  | p :: ps, c :: cs => p = c && startsWithChars ps cs

/-- The `command_config` construction in `main` (run.py lines 833-837):
keep exactly the configuration keys that do not start with `gear-`. -/
def command_config_of (config : PyDict) : PyDict :=
  config.filter fun kv => ¬ startsWithChars "gear-".data kv.1.data

theorem PyDict.get?_set_ne (d : PyDict) (k k' : String) (v : CVal)
    (h : k ≠ k') : (d.set k' v).get? k = d.get? k := by
  have h' : ¬ k' = k := fun hh => h hh.symm
  induction d with
  | nil => simp [PyDict.set, PyDict.get?, h']
  | cons kv rest ih =>
    by_cases hk : kv.1 = k'
    · simp [PyDict.set, PyDict.get?, hk, h']
    · simp [PyDict.set, PyDict.get?, hk, ih]

theorem PyDict.get?_eq_none_of_not_mem (d : PyDict) (k : String)
    (h : k ∉ d.map Prod.fst) : d.get? k = none := by
  induction d with
  | nil => rfl
  | cons kv rest ih =>
    simp only [List.map_cons, List.mem_cons] at h
    push_neg at h
    have h1 : ¬ kv.1 = k := fun hh => h.1 hh.symm
    simp [PyDict.get?, h1, ih h.2]

theorem PyDict.get?_del_self (d : PyDict) (k : String)
    (h : (d.map Prod.fst).Nodup) : (d.del k).get? k = none := by
  induction d with
  | nil => rfl
  | cons kv rest ih =>
    simp only [List.map_cons, List.nodup_cons] at h
    by_cases hk : kv.1 = k
    · subst hk
      simpa [PyDict.del] using PyDict.get?_eq_none_of_not_mem rest kv.1 h.1
    · simp [PyDict.del, hk, PyDict.get?, ih h.2]

/-- C10: `set_core_count` deletes the `n_cpus` key only when its value is
truthy.  With a falsy value the whole dict is kept with only `openmp` set to
the detected CPU count, so the untouched `n_cpus` key survives; in
particular for the dict `[("n_cpus", 0)]` with 8 detected CPUs the key
`n_cpus` is still present afterwards and is not excluded by the `gear-`
filter that builds `command_config` — unlike any truthy `n_cpus` value,
which always leaves a dict without the key. -/
theorem set_core_count_keeps_falsy_n_cpus :
    (∀ (cpu : Int) (config : PyDict) (v : CVal),
      config.get? "n_cpus" = some v → v.truthy = false →
      set_core_count cpu config = .ok (config.set "openmp" (.int cpu)) ∧
        (config.set "openmp" (.int cpu)).get? "n_cpus" = some v) ∧
    (∀ (cpu : Int) (config : PyDict) (v : CVal) (cfg' : PyDict),
      (config.map Prod.fst).Nodup →
      config.get? "n_cpus" = some v → v.truthy = true →
      set_core_count cpu config = .ok cfg' →
      cfg'.get? "n_cpus" = none) ∧
    (set_core_count 8 [("n_cpus", .int 0)] =
        .ok [("n_cpus", .int 0), ("openmp", .int 8)] ∧
      (command_config_of [("n_cpus", .int 0), ("openmp", .int 8)]).get? "n_cpus" =
        some (.int 0) ∧
      set_core_count 8 [("n_cpus", .int 5)] = .ok [("openmp", .int 5)]) := by
  refine ⟨?_, ?_, by rfl, by rfl, by rfl⟩
  · intro cpu config v hget htr
    refine ⟨by simp [set_core_count, hget, htr], ?_⟩
    rw [PyDict.get?_set_ne config "n_cpus" "openmp" _ (by decide)]
    exact hget
  · intro cpu config v cfg' hnd hget htr hok
    rcases v with b | n | s
    · simp only [set_core_count, hget, htr, CVal.pyGtInt, if_true] at hok
      split_ifs at hok <;>
        · injection hok with hok
          subst hok
          rw [PyDict.get?_set_ne _ "n_cpus" "openmp" _ (by decide)]
          exact PyDict.get?_del_self config "n_cpus" hnd
    · simp only [set_core_count, hget, htr, CVal.pyGtInt, if_true] at hok
      split_ifs at hok <;>
        · injection hok with hok
          subst hok
          rw [PyDict.get?_set_ne _ "n_cpus" "openmp" _ (by decide)]
          exact PyDict.get?_del_self config "n_cpus" hnd
    · simp [set_core_count, hget, htr, CVal.pyGtInt] at hok

/-- Witness for C10: the falsy clause applied at `[("n_cpus", 0)]` with 8
CPUs, and the truthy clause applied at `[("n_cpus", 5)]`. -/
theorem set_core_count_keeps_falsy_n_cpus_witness :
    (set_core_count 8 [("n_cpus", CVal.int 0)] =
        .ok (PyDict.set [("n_cpus", CVal.int 0)] "openmp" (CVal.int 8)) ∧
      (PyDict.set [("n_cpus", CVal.int 0)] "openmp" (CVal.int 8)).get? "n_cpus" =
        some (CVal.int 0)) ∧
    PyDict.get? [("openmp", CVal.int 5)] "n_cpus" = none := by
  refine ⟨set_core_count_keeps_falsy_n_cpus.1 8 [("n_cpus", CVal.int 0)]
    (CVal.int 0) (by rfl) (by rfl), ?_⟩
  exact set_core_count_keeps_falsy_n_cpus.2.1 8 [("n_cpus", CVal.int 5)]
    (CVal.int 5) [("openmp", CVal.int 5)] (by decide) (by rfl) (by rfl) (by rfl)

/-! ### make_file_name_safe (utils/fly/make_file_name_safe.py)

The regex `[^A-Za-z0-9_\-.]+` matches maximal runs of unsafe characters;
`re.sub` replaces each such run with the replacement string, and a single
leading `.` is then stripped. -/

/-- A character matched by the safe class `[A-Za-z0-9_\-.]`. -/
def isSafeChar (c : Char) : Bool :=
  ('A' ≤ c && c ≤ 'Z') || ('a' ≤ c && c ≤ 'z') || ('0' ≤ c && c ≤ '9') ||
    c = '_' || c = '-' || c = '.'

/-- `re.sub(safe_patt, repl, s)`: replace each maximal run of unsafe
characters by `repl`.  `inRun` says whether the previous character was
unsafe (so the current run's replacement has already been emitted). -/
def subUnsafeAux (repl : List Char) : Bool → List Char → List Char
  | _, [] => []
  | inRun, c :: rest =>
    if isSafeChar c then c :: subUnsafeAux repl false rest
    else (if inRun then [] else repl) ++ subUnsafeAux repl true rest

/-- The final `startswith(".")` strip: remove a single leading dot. -/
def stripLeadingDot : List Char → List Char
  | '.' :: rest => rest
  | s => s

/-- Embedding of `make_file_name_safe` on character lists: check the
replacement (an unsafe-starting replacement falls back to removal), replace
unsafe runs, then strip a single leading dot. -/
def make_file_name_safe_chars (input repl : List Char) : List Char :=
  let r := match repl with
    | [] => repl
    | c :: _ => if isSafeChar c then repl else []
  stripLeadingDot (subUnsafeAux r false input)

/-- Embedding of `make_file_name_safe` from
`utils/fly/make_file_name_safe.py`. -/
def make_file_name_safe (input_basename replace_str : String) : String :=
  String.mk (make_file_name_safe_chars input_basename.data replace_str.data)

theorem subUnsafeAux_nil_repl (s : List Char) :
    ∀ b : Bool, subUnsafeAux [] b s = s.filter isSafeChar := by
  induction s with
  | nil => intro b; rfl
  | cons c rest ih =>
    intro b
    by_cases hc : isSafeChar c
    · simp [subUnsafeAux, hc, ih false, List.filter_cons, hc]
    · simp [subUnsafeAux, hc, ih true, List.filter_cons, hc]

theorem make_file_name_safe_chars_default (x : List Char) :
    make_file_name_safe_chars x [] =
      stripLeadingDot (x.filter isSafeChar) := by
  simp only [make_file_name_safe_chars, subUnsafeAux_nil_repl]

theorem stripLeadingDot_of_head_ne (c : Char) (rest : List Char)
    (h : c ≠ '.') : stripLeadingDot (c :: rest) = c :: rest := by
  unfold stripLeadingDot
  split
  · next rest' heq =>
    injection heq with h1 h2
    exact absurd h1 h
  · rfl

/-- C4 counterexample: on the input `..a` (with the default empty
replacement) the sanitizer output `.a` still starts with `.`, and a second
pass changes it again, so the sanitizer is not idempotent. -/
theorem make_file_name_safe_counterexample :
    make_file_name_safe "..a" "" = ".a" ∧
      (make_file_name_safe "..a" "").data.head? = some '.' ∧
      make_file_name_safe (make_file_name_safe "..a" "") "" = "a" ∧
      make_file_name_safe (make_file_name_safe "..a" "") "" ≠
        make_file_name_safe "..a" "" := by
  refine ⟨rfl, rfl, rfl, by decide⟩

/-- C4 amended: the output always matches `^[A-Za-z0-9_.-]*$`; only a single
leading dot is stripped, so when the safe-filtered input does not begin with
two dots the output does not start with `.` and sanitizing twice equals
sanitizing once (both can fail when the filtered input begins with `..`). -/
theorem make_file_name_safe_class_and_conditional_idempotence :
    ∀ x : List Char,
      (make_file_name_safe_chars x []).all isSafeChar = true ∧
      ((x.filter isSafeChar).take 2 ≠ ['.', '.'] →
        (make_file_name_safe_chars x []).head? ≠ some '.' ∧
        make_file_name_safe_chars (make_file_name_safe_chars x []) [] =
          make_file_name_safe_chars x []) := by
  intro x
  rw [make_file_name_safe_chars_default]
  have hall : ∀ c ∈ x.filter isSafeChar, isSafeChar c := by
    intro c hc
    exact (List.mem_filter.mp hc).2
  rcases hy : x.filter isSafeChar with _ | ⟨c, rest⟩
  · exact ⟨rfl, fun _ => ⟨by simp [stripLeadingDot], by
      rw [make_file_name_safe_chars_default]
      rfl⟩⟩
  · have hcrest : ∀ d ∈ c :: rest, isSafeChar d := hy ▸ hall
    by_cases hc : c = '.'
    · subst hc
      constructor
      · simp only [stripLeadingDot, List.all_eq_true]
        intro d hd
        exact hcrest d (List.mem_cons_of_mem _ hd)
      · intro htake
        have hrest : rest.head? ≠ some '.' := by
          intro hh
          rcases rest with _ | ⟨d, rest'⟩
          · simp at hh
          · simp only [List.head?_cons, Option.some.injEq] at hh
            subst hh
            simp at htake
        rw [show stripLeadingDot ('.' :: rest) = rest from rfl]
        refine ⟨hrest, ?_⟩
        rw [make_file_name_safe_chars_default]
        have hfr : rest.filter isSafeChar = rest := by
          apply List.filter_eq_self.mpr
          intro d hd
          exact hcrest d (List.mem_cons_of_mem _ hd)
        rw [hfr]
        rcases rest with _ | ⟨d, rest'⟩
        · rfl
        · have hd : d ≠ '.' := by
            intro hh
            exact hrest (by simp [hh])
          exact stripLeadingDot_of_head_ne d rest' hd
    · rw [stripLeadingDot_of_head_ne c rest hc]
      constructor
      · simp only [List.all_eq_true]
        intro d hd
        exact hcrest d hd
      · intro _
        refine ⟨by simp [hc], ?_⟩
        rw [make_file_name_safe_chars_default]
        have hfr : (c :: rest).filter isSafeChar = c :: rest := by
          apply List.filter_eq_self.mpr
          exact hcrest
        rw [hfr, stripLeadingDot_of_head_ne c rest hc]

/-- Witness for C4 amended: the conditional clause applied at `.ab`, whose
filtered form does not begin with two dots. -/
theorem make_file_name_safe_conditional_witness :
    (".ab".data.filter isSafeChar).take 2 ≠ ['.', '.'] ∧
      (make_file_name_safe_chars ".ab".data []).head? ≠ some '.' ∧
      make_file_name_safe_chars (make_file_name_safe_chars ".ab".data []) [] =
        make_file_name_safe_chars ".ab".data [] := by
  refine ⟨by decide, ?_⟩
  exact (make_file_name_safe_class_and_conditional_idempotence ".ab".data).2
    (by decide)

/-! ### A model of Python/JSON values

`validate_bids` and `fix_dataset_description` manipulate the result of
`json.load`, which is an arbitrary JSON value; the Python operations used on
it (subscripting, `len`, iteration, `in`, truthiness, `list()`,
concatenation with a string) are embedded with their Python error
behaviour. -/

/-- A JSON value as loaded by `json.load`. -/
inductive JVal where
  | null
  | bool (b : Bool)
  | int (n : Int)
  | str (s : String)
  | arr (xs : List JVal)
  | obj (kvs : List (String × JVal))

/-- Python `v[key]` with a string key: dict lookup (`KeyError` when the key
is missing); strings and lists take integer indices only, and other values
are not subscriptable (`TypeError`). -/
def JVal.subscript : JVal → String → Except PyErr JVal
  | .obj kvs, k =>
    match kvs.lookup k with
    | some v => .ok v
    | none => .error .keyError
  | _, _ => .error .typeError

/-- Python `len(v)`. -/
def JVal.pyLen : JVal → Except PyErr Nat
  | .arr xs => .ok xs.length
  | .str s => .ok s.length
  | .obj kvs => .ok kvs.length
  | _ => .error .typeError

/-- Python iteration over `v` (also `list(v)`): the elements of a list, the
characters of a string, the keys of a dict; other values are not
iterable. -/
def JVal.pyIter : JVal → Except PyErr (List JVal)
  | .arr xs => .ok xs
  | .str s => .ok (s.data.map fun c => .str (String.mk [c]))
  | .obj kvs => .ok (kvs.map fun kv => .str kv.1)
  | _ => .error .typeError

/-- Python truthiness of a JSON value. -/
def JVal.pyTruthy : JVal → Bool
  | .null => false
  | .bool b => b
  | .int n => n ≠ 0
  | .str s => s ≠ ""
  | .arr xs => ¬ xs.isEmpty
  | .obj kvs => ¬ kvs.isEmpty

/-- Is `sub` a contiguous substring of `s`? -/
def containsSub (sub : List Char) : List Char → Bool
  | [] => startsWithChars sub []
  | c :: rest => startsWithChars sub (c :: rest) || containsSub sub rest

/-- Python `key in v`: dict key membership, list element equality, string
substring; other values are not containers (`TypeError`). -/
def JVal.pyContains : JVal → String → Except PyErr Bool
  | .obj kvs, k => .ok (kvs.any fun kv => kv.1 = k)
  | .arr xs, k =>
    .ok (xs.any fun v => match v with | .str s => s = k | _ => false)
  | .str s, k => .ok (containsSub k.data s.data)
  | _, _ => .error .typeError

/-- Python `"literal " + v`: string concatenation needs `v` to be a string,
otherwise `TypeError`. -/
def JVal.asStr : JVal → Except PyErr String
  | .str s => .ok s
  | _ => .error .typeError

/-! ### validate_bids (utils/bids/validate.py lines 112-193)

`call_validate_bids` runs a subprocess and parses its JSON output file; its
result enters as the pair (returncode, parsed output), where an output file
that is not JSON is delivered as the raw `JVal.str` that the fallback
`jfp.read()` produces (with returncode forced to 1 by that handler). -/

/-- Embedding of `show_errors_and_warnings` from `utils/bids/validate.py`,
keeping only control flow and the Python errors the string formatting can
raise. -/
def show_errors_and_warnings (bids_output : JVal) : Except PyErr Unit := do
  let hasSummary ← bids_output.pyContains "summary"
  if hasSummary then
    let _ ← bids_output.subscript "summary"
    pure ()
  let issues ← bids_output.subscript "issues"
  let errs ← issues.subscript "errors"
  let errList ← errs.pyIter
  for err in errList do
    let reason ← err.subscript "reason"
    let _ ← reason.asStr
    let files ← err.subscript "files"
    let fileList ← files.pyIter
    for ff in fileList do
      let file ← ff.subscript "file"
      if file.pyTruthy then
        let _rel ← (← file.subscript "relativePath").asStr
        pure ()
      let hasEv ← ff.pyContains "evidence"
      if hasEv then
        let ev ← ff.subscript "evidence"
        if ev.pyTruthy then
          let _ ← ev.asStr
          pure ()
  let issues2 ← bids_output.subscript "issues"
  let warns ← issues2.subscript "warnings"
  let warnList ← warns.pyIter
  for warn in warnList do
    let reason ← warn.subscript "reason"
    let _ ← reason.asStr
    let files ← warn.subscript "files"
    let fileList ← files.pyIter
    for ff in fileList do
      let file ← ff.subscript "file"
      if file.pyTruthy then
        let _rel ← (← file.subscript "relativePath").asStr
        pure ()

/-- The `len(bids_output["issues"]["errors"])` computation of
`validate_bids`. -/
def bids_error_count (bids_output : JVal) : Except PyErr Nat := do
  let issues ← bids_output.subscript "issues"
  let errs ← issues.subscript "errors"
  errs.pyLen

/-- Embedding of `validate_bids` from `utils/bids/validate.py`:
`num_bids_errors` starts at -1; the try block computes the error count and
calls `show_errors_and_warnings`, catching only `TypeError` (which sets
`err_code = 12`); then a negative count forces 11, a positive count forces
10, and otherwise the error code (12, or the returncode from
`call_validate_bids`) stands. -/
def validate_bids_model (returncode : Int) (bids_output : JVal) :
    Except PyErr Int :=
  let tryRes : Except PyErr (Int × Int) :=
    match bids_error_count bids_output with
    | .ok n =>
      match show_errors_and_warnings bids_output with
      | .ok _ => .ok ((n : Int), returncode)
      | .error .typeError => .ok ((n : Int), 12)
      | .error e => .error e
    | .error .typeError => .ok (-1, 12)
    | .error e => .error e
  match tryRes with
  | .error e => .error e
  | .ok (num, ec) => .ok (if num < 0 then 11 else if num > 0 then 10 else ec)

/-- C5 counterexample: for parseable validator output of unexpected shape
(`issues` is null), the analysis raises a `TypeError`, but `validate_bids`
returns 11, not 12 (the later `num_bids_errors < 0` check overwrites the
12). -/
theorem validate_bids_counterexample :
    bids_error_count (JVal.obj [("issues", JVal.null)]) =
        .error .typeError ∧
      validate_bids_model 0 (JVal.obj [("issues", JVal.null)]) = .ok 11 ∧
      (11 : Int) ≠ 12 := by
  refine ⟨rfl, rfl, by decide⟩

/-- C5 amended: the outcome mapping of `validate_bids` is: 11 whenever the
`TypeError` occurs while computing the error count (including the
no-parseable-output case, where the output is the raw string); 10 whenever
the parsed count is positive (even if the display step then raises
`TypeError`); 12 only when the parsed count is zero and the display step
raises `TypeError`; and with a clean report (count zero, display fine) the
returncode of the validator call is passed through, so 0 exactly for a
clean run. -/
theorem validate_bids_outcome_mapping :
    (∀ (rc : Int) (out : JVal), bids_error_count out = .error .typeError →
      validate_bids_model rc out = .ok 11) ∧
    (∀ (rc : Int) (out : JVal) (n : Nat), bids_error_count out = .ok n →
      0 < n →
      (show_errors_and_warnings out = .ok () ∨
        show_errors_and_warnings out = .error .typeError) →
      validate_bids_model rc out = .ok 10) ∧
    (∀ (rc : Int) (out : JVal), bids_error_count out = .ok 0 →
      show_errors_and_warnings out = .error .typeError →
      validate_bids_model rc out = .ok 12) ∧
    (∀ (rc : Int) (out : JVal), bids_error_count out = .ok 0 →
      show_errors_and_warnings out = .ok () →
      validate_bids_model rc out = .ok rc) ∧
    validate_bids_model 1 (JVal.str "this is not json") = .ok 11 := by
  refine ⟨?_, ?_, ?_, ?_, rfl⟩
  · intro rc out hnum
    simp [validate_bids_model, hnum]
  · intro rc out n hnum hn hshow
    rcases hshow with hshow | hshow <;>
      simp [validate_bids_model, hnum, hshow, hn, Int.lt_iff_add_one_le]
  · intro rc out hnum hshow
    simp [validate_bids_model, hnum, hshow]
  · intro rc out hnum hshow
    simp [validate_bids_model, hnum, hshow]

/-- Witness for C5 amended: each clause applied at a concrete validator
output (unexpected shape; one structural error; zero errors with a
display-breaking warnings field; a clean report). -/
theorem validate_bids_outcome_mapping_witness :
    validate_bids_model 0 (JVal.obj [("issues", JVal.null)]) = .ok 11 ∧
      validate_bids_model 0 (JVal.obj [("issues", JVal.obj
        [("errors", JVal.arr [JVal.obj [("reason", JVal.str "bad"),
          ("files", JVal.arr [])]]),
         ("warnings", JVal.arr [])])]) = .ok 10 ∧
      validate_bids_model 0 (JVal.obj [("issues", JVal.obj
        [("errors", JVal.arr []), ("warnings", JVal.int 5)])]) = .ok 12 ∧
      validate_bids_model 0 (JVal.obj [("issues", JVal.obj
        [("errors", JVal.arr []), ("warnings", JVal.arr [])])]) = .ok 0 := by
  refine ⟨validate_bids_outcome_mapping.1 0 _ (by rfl), ?_, ?_, ?_⟩
  · exact validate_bids_outcome_mapping.2.1 0 _ 1 (by rfl) (by decide)
      (Or.inl (by rfl))
  · exact validate_bids_outcome_mapping.2.2.1 0 _ (by rfl) (by rfl)
  · exact validate_bids_outcome_mapping.2.2.2.1 0 _ (by rfl) (by rfl)

/-! ### fix_dataset_description (utils/bids/download_run_level.py
lines 32-80)

The file state enters as `Option JVal` (`none` when
`dataset_description.json` does not exist); the result is the new content
together with the `need_to_write` flag saying whether it was (re)written. -/

/-- Python `data[key] = v` on a JSON object. -/
def setKeyList (kvs : List (String × JVal)) (k : String) (v : JVal) :
    List (String × JVal) :=
  match kvs with
  | [] => [(k, v)]
  | kv :: rest => if kv.1 = k then (k, v) :: rest else kv :: setKeyList rest k v

/-- Python `data[key] = v` (only objects are assigned to in the source). -/
def JVal.setKey : JVal → String → JVal → JVal
  | .obj kvs, k, v => .obj (setKeyList kvs k v)
  | j, _, _ => j

/-- The `DATASET_DESCRIPTION` constant of
`utils/bids/download_run_level.py`. -/
def DATASET_DESCRIPTION : JVal :=
  .obj [("Acknowledgements", .str ""), ("Authors", .arr []),
    ("BIDSVersion", .str "1.2.0"), ("DatasetDOI", .str ""),
    ("Funding", .arr []), ("HowToAcknowledge", .str ""),
    ("License", .str ""), ("Name", .str "tome"),
    ("ReferencesAndLinks", .arr []), ("template", .str "project")]

/-- Embedding of `fix_dataset_description` from
`utils/bids/download_run_level.py`: an existing file has its `Funding`
field checked (`KeyError` if absent); a non-list value is replaced by
`list(value)` and the file rewritten; a missing file gets the default
description. -/
def fix_dataset_description (file : Option JVal) :
    Except PyErr (Option JVal × Bool) :=
  match file with
  | some data =>
    match data.subscript "Funding" with
    | .error e => .error e
    | .ok (.arr _) => .ok (some data, false)
    | .ok v =>
      match v.pyIter with
      | .error e => .error e
      | .ok l => .ok (some (data.setKey "Funding" (.arr l)), true)
  | none => .ok (some DATASET_DESCRIPTION, true)

/-- Length of a JSON array (0 for other values). -/
def JVal.arrLen : JVal → Nat
  | .arr xs => xs.length
  | _ => 0

/-- C8 counterexample: a scalar string `Funding` value `"ab"` is replaced by
`list("ab") = ["a", "b"]` — the list of its characters — not by the
one-element list `["ab"]` the claim states. -/
theorem fix_dataset_description_counterexample :
    fix_dataset_description (some (JVal.obj [("Funding", JVal.str "ab")])) =
        .ok (some (JVal.obj
          [("Funding", JVal.arr [JVal.str "a", JVal.str "b"])]), true) ∧
      JVal.arr [JVal.str "a", JVal.str "b"] ≠ JVal.arr [JVal.str "ab"] := by
  refine ⟨rfl, fun h => ?_⟩
  have hlen := congrArg JVal.arrLen h
  simp [JVal.arrLen] at hlen

/-- C8 amended: a missing file gets the synthesized default and is written;
a `Funding` field that is already a list leaves the file unchanged and
unwritten; a non-list `Funding` is replaced by Python `list(value)` — for a
string, the list of its one-character strings (so the common empty-string
defect becomes the empty list) — and the file is rewritten; a non-iterable
scalar raises an uncaught `TypeError`. -/
theorem fix_dataset_description_behavior :
    fix_dataset_description none = .ok (some DATASET_DESCRIPTION, true) ∧
    (∀ (data : JVal) (xs : List JVal),
      data.subscript "Funding" = .ok (.arr xs) →
      fix_dataset_description (some data) = .ok (some data, false)) ∧
    (∀ (data : JVal) (s : String),
      data.subscript "Funding" = .ok (.str s) →
      fix_dataset_description (some data) =
        .ok (some (data.setKey "Funding"
          (.arr (s.data.map fun c => .str (String.mk [c])))), true)) ∧
    (∀ (data : JVal) (n : Int),
      data.subscript "Funding" = .ok (.int n) →
      fix_dataset_description (some data) = .error .typeError) := by
  refine ⟨rfl, ?_, ?_, ?_⟩
  · intro data xs h
    simp [fix_dataset_description, h]
  · intro data s h
    simp [fix_dataset_description, h, JVal.pyIter]
  · intro data n h
    simp [fix_dataset_description, h, JVal.pyIter]

/-- Witness for C8 amended: the already-a-list clause at a file whose
`Funding` is `[]`, the string clause at `Funding = ""`, and the non-iterable
clause at `Funding = 3`. -/
theorem fix_dataset_description_behavior_witness :
    fix_dataset_description (some (JVal.obj [("Funding", JVal.arr [])])) =
        .ok (some (JVal.obj [("Funding", JVal.arr [])]), false) ∧
      fix_dataset_description (some (JVal.obj [("Funding", JVal.str "")])) =
        .ok (some ((JVal.obj [("Funding", JVal.str "")]).setKey "Funding"
          (.arr (("" : String).data.map fun c => .str (String.mk [c])))),
          true) ∧
      fix_dataset_description (some (JVal.obj [("Funding", JVal.int 3)])) =
        .error .typeError := by
  refine ⟨fix_dataset_description_behavior.2.1 _ [] (by rfl),
    fix_dataset_description_behavior.2.2.1 _ "" (by rfl),
    fix_dataset_description_behavior.2.2.2 _ 3 (by rfl)⟩

/-! ### get_run_level_and_hierarchy (utils/bids/run_level.py)

The Flywheel client is an oracle: `getDest` is `fw.get(destination_id)` and
`getLabel` is `fw.get(container_id).label`.  `ApiException` anywhere in the
try block lands in the `no_destination` fallback; Python's
`UnboundLocalError` (reading `run_label` when no branch assigned it) is an
uncaught error. -/

/-- The hierarchy dict returned by `get_run_level_and_hierarchy`.  In the
`ApiException` branch the label fields are Python `None`, modelled as
`none`. -/
structure Hierarchy where
  run_level : String
  run_label : String
  group : Option String
  project_label : Option String
  subject_label : Option String
  session_label : Option String
  acquisition_label : Option String
  deriving Repr, DecidableEq

/-- The destination container as used by the resolver: the `parent.type`
when a parent is present, the `parents` map's group value and per-level
container ids. -/
structure Destination where
  parent_type : Option String
  group : Option String
  project : Option String
  subject : Option String
  session : Option String
  acquisition : Option String

/-- The Flywheel client oracle. -/
structure Fw where
  getDest : Except PyErr Destination
  getLabel : String → Except PyErr String

/-- `run_level`: the parent's type, or `no_parent` without a parent. -/
def runLevelOf (d : Destination) : String :=
  match d.parent_type with
  | some t => t
  | none => "no_parent"

/-- One `if destination.parents[level]: ... else "unknown <level>"` step. -/
def labelFor (fw : Fw) (oid : Option String) (fallback : String) :
    Except PyErr String :=
  match oid with
  | some cid => fw.getLabel cid
  | none => pure fallback

/-- The `run_label` selection chain; `none` models the `run_label` variable
staying unassigned for an unrecognized `run_level`. -/
def pickRunLabel (run_level pl sl sel al : String) : Option String :=
  if run_level = "project" then some pl
  else if run_level = "subject" then some sl
  else if run_level = "session" then some sel
  else if run_level = "acquisition" then some al
  else if run_level = "no_parent" then some "unknown"
  else none

/-- Embedding of `get_run_level_and_hierarchy` from
`utils/bids/run_level.py`. -/
def get_run_level_and_hierarchy (fw : Fw) : Except PyErr Hierarchy :=
  let tryRes : Except PyErr
      (String × Option String × Option String × String × String × String ×
        String) := do
    let destination ← fw.getDest
    let run_level := runLevelOf destination
    let group := destination.group
    let project_label ← labelFor fw destination.project "unknown project"
    let subject_label ← labelFor fw destination.subject "unknown subject"
    let session_label ← labelFor fw destination.session "unknown session"
    let acquisition_label ←
      labelFor fw destination.acquisition "unknown acquisition"
    let run_label :=
      pickRunLabel run_level project_label subject_label session_label
        acquisition_label
    pure (run_level, run_label, group, project_label, subject_label,
      session_label, acquisition_label)
  match tryRes with
  | .ok (run_level, some run_label, group, pl, sl, sel, al) =>
    .ok ⟨run_level, run_label, group, some pl, some sl, some sel, some al⟩
  | .ok (_, none, _, _, _, _, _) => .error .unboundLocalError
  | .error .apiError =>
    .ok ⟨"no_destination", "unknown", none, none, none, none, none⟩
  | .error e => .error e

theorem exceptOkBind {ε α β : Type} (a : α) (f : α → Except ε β) :
    (Except.ok a : Except ε α) >>= f = f a := rfl

/-- C7 counterexample: when the destination lookup raises an `ApiException`
the returned hierarchy's per-level labels are null (`none`), not
`"unknown <level>"` placeholder strings; and for a destination whose parent
has an unexpected type no mapping is returned at all — reading `run_label`
raises an uncaught `UnboundLocalError`. -/
theorem run_level_hierarchy_counterexample :
    get_run_level_and_hierarchy ⟨.error .apiError, fun _ => .ok "x"⟩ =
        .ok ⟨"no_destination", "unknown", none, none, none, none, none⟩ ∧
      (Hierarchy.session_label
          ⟨"no_destination", "unknown", none, none, none, none, none⟩ ≠
        some "unknown session") ∧
      get_run_level_and_hierarchy
          ⟨.ok ⟨some "analysis", some "g", none, none, none, none⟩,
            fun _ => .ok "x"⟩ =
        .error .unboundLocalError := by
  refine ⟨rfl, by simp, rfl⟩

/-- C7 amended: on an `ApiException` the hierarchy is returned with
`run_level = "no_destination"`, `run_label = "unknown"`, and null per-level
labels.  On a successful lookup whose label fetches succeed, if the parent
type is one of the five recognized levels the hierarchy is returned with
`run_label` defined (falling back to `"unknown"` for `no_parent`) and with
every absent parent's label the `"unknown <level>"` placeholder (never
null); an unrecognized parent type instead raises an uncaught
`UnboundLocalError`. -/
theorem run_level_hierarchy_behavior :
    (∀ fw : Fw, fw.getDest = .error .apiError →
      get_run_level_and_hierarchy fw =
        .ok ⟨"no_destination", "unknown", none, none, none, none, none⟩) ∧
    (∀ (fw : Fw) (d : Destination) (pl sl sel al rl : String),
      fw.getDest = .ok d →
      labelFor fw d.project "unknown project" = .ok pl →
      labelFor fw d.subject "unknown subject" = .ok sl →
      labelFor fw d.session "unknown session" = .ok sel →
      labelFor fw d.acquisition "unknown acquisition" = .ok al →
      pickRunLabel (runLevelOf d) pl sl sel al = some rl →
      get_run_level_and_hierarchy fw =
        .ok ⟨runLevelOf d, rl, d.group, some pl, some sl, some sel,
          some al⟩) ∧
    (∀ (fw : Fw) (d : Destination) (pl sl sel al : String),
      fw.getDest = .ok d →
      labelFor fw d.project "unknown project" = .ok pl →
      labelFor fw d.subject "unknown subject" = .ok sl →
      labelFor fw d.session "unknown session" = .ok sel →
      labelFor fw d.acquisition "unknown acquisition" = .ok al →
      pickRunLabel (runLevelOf d) pl sl sel al = none →
      get_run_level_and_hierarchy fw = .error .unboundLocalError) ∧
    (∀ (fw : Fw) (fallback : String),
      labelFor fw none fallback = .ok fallback) ∧
    (∀ pl sl sel al : String,
      pickRunLabel "no_parent" pl sl sel al = some "unknown") := by
  refine ⟨?_, ?_, ?_, fun fw fallback => rfl, fun pl sl sel al => rfl⟩
  · intro fw hget
    unfold get_run_level_and_hierarchy
    rw [hget]
    rfl
  · intro fw d pl sl sel al rl hget hpl hsl hsel hal hpick
    unfold get_run_level_and_hierarchy
    rw [hget]
    rw [exceptOkBind, hpl, exceptOkBind, hsl, exceptOkBind, hsel,
      exceptOkBind, hal, exceptOkBind, hpick]
    rfl
  · intro fw d pl sl sel al hget hpl hsl hsel hal hpick
    unfold get_run_level_and_hierarchy
    rw [hget]
    rw [exceptOkBind, hpl, exceptOkBind, hsl, exceptOkBind, hsel,
      exceptOkBind, hal, exceptOkBind, hpick]
    rfl

/-- Witness for C7 amended: a subject-level destination whose session and
acquisition parents are absent gets placeholder labels, and a destination
with parent type `analysis` raises. -/
theorem run_level_hierarchy_behavior_witness :
    get_run_level_and_hierarchy
        ⟨.ok ⟨some "subject", some "g1", some "p1", some "s1", none, none⟩,
          fun cid => .ok ("label of " ++ cid)⟩ =
      .ok ⟨"subject", "label of s1", some "g1", some "label of p1",
        some "label of s1", some "unknown session",
        some "unknown acquisition"⟩ ∧
    get_run_level_and_hierarchy
        ⟨.ok ⟨some "analysis", some "g1", none, none, none, none⟩,
          fun cid => .ok ("label of " ++ cid)⟩ =
      .error .unboundLocalError := by
  constructor
  · exact run_level_hierarchy_behavior.2.1
      ⟨.ok ⟨some "subject", some "g1", some "p1", some "s1", none, none⟩,
        fun cid => .ok ("label of " ++ cid)⟩
      ⟨some "subject", some "g1", some "p1", some "s1", none, none⟩
      "label of p1" "label of s1" "unknown session" "unknown acquisition"
      "label of s1" rfl rfl rfl rfl rfl rfl
  · exact run_level_hierarchy_behavior.2.2.1
      ⟨.ok ⟨some "analysis", some "g1", none, none, none, none⟩,
        fun cid => .ok ("label of " ++ cid)⟩
      ⟨some "analysis", some "g1", none, none, none, none⟩
      "unknown project" "unknown subject" "unknown session"
      "unknown acquisition" rfl rfl rfl rfl rfl rfl

/-! ### download_bids_for_runlevel (utils/bids/download_run_level.py
lines 83-353)

The gear context and SDK enter as an oracle: the destination type, the
acquisition-label lookup used when the destination itself is an
acquisition, whether `work/bids` already exists, the results of
`download_project_bids` / `download_bids_dir` (which can raise
`BIDSExportError` or `ApiException`, both caught), whether the obtained
path exists afterwards, and the outcome of `validate_bids` (any exception
there is caught and mapped to 22).  The result carries the returned
`err_code` together with instrumentation counting how many download calls
were made; reading `err_code` when no branch assigned it is Python's
uncaught `UnboundLocalError`. -/

/-- Exceptions caught by the download try block. -/
inductive DlErr where
  | bidsExport
  | api
  deriving Repr, DecidableEq

/-- The oracle for `download_bids_for_runlevel`'s collaborators. -/
structure DlOracle where
  destType : String
  acqLookup : Except PyErr String
  bidsDirExists : Bool
  projectDownload : Except DlErr (Option String)
  acqDownload : Except DlErr Unit
  pathExists : String → Bool
  doValidate : Bool
  validateResult : Except Unit Int

/-- Embedding of `download_bids_for_runlevel` from
`utils/bids/download_run_level.py`.  Note the guard for the unknown
acquisition sentinel compares against the literal `"unknown acqusition"`
exactly as the source spells it. -/
def download_bids_for_runlevel (o : DlOracle) (h : Hierarchy) :
    Except PyErr (Int × Nat) :=
  let run_level := h.run_level
  if run_level = "no_destination" then
    -- bids_path = None and err_code = 24; the validation block is skipped
    .ok (24, 0)
  else
    let special : Except PyErr (Option String × String) :=
      if o.destType = "analysis" then .ok (h.acquisition_label, run_level)
      else if o.destType = "acquisition" then
        match o.acqLookup with
        | .ok lbl => .ok (some lbl, "acquisition")
        | .error e => .error e
      else .ok (h.acquisition_label, run_level)
    match special with
    | .error e => .error e
    | .ok (acq_label, run_level) =>
      -- the try block: (bids_path, err_code so far, download calls made)
      let dl : Option String × Option Int × Nat :=
        if run_level = "project" ∨ run_level = "subject" ∨
            run_level = "session" then
          if o.bidsDirExists then (some "work/bids", none, 0)
          else
            match o.projectDownload with
            | .ok p => (p, none, 1)
            | .error .bidsExport => (none, some 21, 1)
            | .error .api => (none, some 25, 1)
        else if run_level = "acquisition" then
          if acq_label = some "unknown acqusition" then (none, some 23, 0)
          else if o.bidsDirExists then (some "work/bids", none, 0)
          else
            match o.acqDownload with
            | .ok _ => (some "work/bids", none, 1)
            | .error .bidsExport => (none, some 21, 1)
            | .error .api => (none, some 25, 1)
        else (none, some 20, 0)
      let err_code : Option Int :=
        match dl.1 with
        | some p =>
          if o.pathExists p then
            if o.doValidate then
              match o.validateResult with
              | .ok v => some v
              | .error _ => some 22
            else some 0
          else some 26
        | none => dl.2.1
      match err_code with
      | some e => .ok (e, dl.2.2)
      | none => .error .unboundLocalError

/-- The hierarchy produced by `get_run_level_and_hierarchy` for an
acquisition-level destination whose acquisition parent is absent: the
sentinel label is spelled `"unknown acquisition"`. -/
def sentinelHierarchy : Hierarchy :=
  ⟨"acquisition", "unknown acquisition", some "g", some "P", some "S",
    some "unknown session", some "unknown acquisition"⟩

/-- C6: the resolver's sentinel `"unknown acquisition"` is NOT caught by
the guard (which compares against the misspelled `"unknown acqusition"`):
the download branch runs (one `download_bids_dir` call) and the error code
is determined by the downloaded data (here 26), not 23.  The misspelled
label, by contrast, is caught: error code 23 with no download call. -/
theorem download_unknown_acquisition_sentinel_missed :
    download_bids_for_runlevel
        { destType := "analysis", acqLookup := .ok "A",
          bidsDirExists := false, projectDownload := .ok none,
          acqDownload := .ok (), pathExists := fun _ => false,
          doValidate := true, validateResult := .ok 0 }
        sentinelHierarchy = .ok (26, 1) ∧
      ((26 : Int) ≠ 23 ∧ (1 : Nat) ≠ 0) ∧
      download_bids_for_runlevel
        { destType := "analysis", acqLookup := .ok "A",
          bidsDirExists := false, projectDownload := .ok none,
          acqDownload := .ok (), pathExists := fun _ => false,
          doValidate := true, validateResult := .ok 0 }
        { sentinelHierarchy with
            run_label := "unknown acqusition",
            acquisition_label := some "unknown acqusition" } =
        .ok (23, 0) := by
  refine ⟨rfl, ⟨by decide, by decide⟩, rfl⟩

end ReconAll
